import Mathlib

/-!
Shallow embedding of the jerseyshop backend (src/server.js): an Express +
MongoDB API with admin authentication, a product catalog, order tracking,
a logo-approval workflow and two reporting endpoints.

The document store is modelled as four in-memory collections (lists of
typed records) plus a counter for driver-generated ids.  Each HTTP route
handler becomes a pure function from the store and the request parameters
to an `ApiResult` carrying the HTTP status code, the JSON body, the new
store state and a log of the store operations performed.  HTTP status
codes carry the error taxonomy: 400 ValidationError/ConflictError,
401 AuthError, 404 NotFoundError, 500 StoreError (thrown exceptions).

JavaScript numbers are modelled as `JNum` (NaN or an exact rational);
external library behaviour (`parseFloat`, `ObjectId`, bcrypt) is modelled
explicitly below, each with a comment stating the modelling choice.
-/

namespace JerseyShop

/-- A JavaScript number as it occurs in stored documents and responses:
NaN (e.g. the result of `parseFloat` on a non-numeric string) or a finite
value. Finite doubles are modelled as exact rationals; the code only
parses decimal literals and adds values, so no rounding behaviour is
depended on by any statement below. -/
inductive JNum where
  | nan : JNum
  | num : ℚ → JNum
deriving Repr, DecidableEq

/-- JavaScript addition as used by the aggregation sums: NaN propagates. -/
def JNum.add : JNum → JNum → JNum
  | JNum.num a, JNum.num b => JNum.num (a + b)
  | _, _ => JNum.nan

/-- A JSON value, the shape of every response body the server sends. -/
inductive JVal where
  | jnull : JVal
  | jbool : Bool → JVal
  | jnum : JNum → JVal
  | jstr : String → JVal
  | jarr : List JVal → JVal
  | jobj : List (String × JVal) → JVal

/-- Field lookup in a JSON object (used to state facts about one field of
a response body). -/
def JVal.lookupField : JVal → String → Option JVal
  | JVal.jobj fields, k => fields.lookup k
  | _, _ => none

/-- Numeric value of a digit string, most significant first. -/
def digitsVal (ds : List Char) : Nat :=
  ds.foldl (fun a c => a * 10 + (c.toNat - '0'.toNat)) 0

/-- Exponent suffix of a JavaScript float literal: `e`/`E`, optional sign,
digits; an exponent marker without digits contributes 0, matching
JavaScript, which backtracks over an incomplete exponent. -/
def expPart (cs : List Char) : ℤ :=
  match cs with
  | c :: rest =>
    if c == 'e' || c == 'E' then
      match rest with
      | d :: ds =>
        if d == '-' then -(digitsVal (ds.takeWhile Char.isDigit) : ℤ)
        else if d == '+' then (digitsVal (ds.takeWhile Char.isDigit) : ℤ)
        else (digitsVal ((d :: ds).takeWhile Char.isDigit) : ℤ)
      | [] => 0
    else 0
  | [] => 0

/-- Powers of ten, written out structurally so that concrete parses
evaluate by kernel reduction. -/
def pow10Nat : Nat → ℚ
  | 0 => 1
  | n + 1 => 10 * pow10Nat n

def pow10 : ℤ → ℚ
  | Int.ofNat n => pow10Nat n
  | Int.negSucc n => 1 / pow10Nat (n + 1)

/-- Model of the JavaScript builtin `parseFloat`: skip leading whitespace,
optional sign, decimal digits with optional fraction and exponent; NaN
when no digit can be read.  (The `Infinity` literal is not modelled; no
statement below involves it.) -/
def parseFloat (s : String) : JNum :=
  let ws : Char → Bool := fun c =>
    c == ' ' || c == '\t' || c == '\n' || c == '\r'
  let cs0 := s.toList.dropWhile ws
  let sgn : ℚ := match cs0 with
    | c :: _ => if c == '-' then -1 else 1
    | [] => 1
  let cs1 : List Char := match cs0 with
    | c :: rest => if c == '-' || c == '+' then rest else cs0
    | [] => cs0
  let intPart := cs1.takeWhile Char.isDigit
  let cs2 := cs1.dropWhile Char.isDigit
  let fracPart : List Char := match cs2 with
    | c :: rest => if c == '.' then rest.takeWhile Char.isDigit else []
    | [] => []
  let cs3 : List Char := match cs2 with
    | c :: rest => if c == '.' then rest.dropWhile Char.isDigit else cs2
    | [] => cs2
  if intPart.isEmpty && fracPart.isEmpty then JNum.nan
  else
    JNum.num (sgn * ((digitsVal intPart : ℚ) +
      (digitsVal fracPart : ℚ) / pow10Nat fracPart.length) * pow10 (expPart cs3))

/-- JavaScript truthiness of an optional string request field: absent or
the empty string is falsy (`!x`). -/
def falsy : Option String → Bool
  | none => true
  | some s => s == ""

/-- Model of the driver check `ObjectId.isValid` on a string: true for a
12-character string (read as raw bytes) or a 24-character hex string. -/
def isHexChar (c : Char) : Bool :=
  c.isDigit || ( 'a' ≤ c && c ≤ 'f') || ( 'A' ≤ c && c ≤ 'F')

def isValidObjectId (s : String) : Bool :=
  s.length == 12 || (s.length == 24 && s.toList.all isHexChar)

def hexDigitChar (n : Nat) : Char :=
  if n < 10 then Char.ofNat ( '0'.toNat + n) else Char.ofNat ( 'a'.toNat + n - 10)

/-- Canonical form of an id string as `new ObjectId(id)` reads it: a
24-char hex string is lowercased, a 12-char string is read as 12 raw
bytes and rendered as 24 hex chars.  Stored `_id` values are kept in
canonical form, so ObjectId equality is equality of canonical strings. -/
def normId (s : String) : String :=
  if s.length == 12 then
    String.mk (s.toList.foldr
      (fun c acc => hexDigitChar (c.toNat / 16 % 16) :: hexDigitChar (c.toNat % 16) :: acc) [])
  else String.mk (s.toList.map Char.toLower)

/-- Driver-generated ObjectId for the n-th insert: n in hex, zero-padded
to 24 chars (canonical form). -/
def idOfNat (n : Nat) : String :=
  let ds := Nat.toDigits 16 n
  String.mk (List.replicate (24 - ds.length) '0' ++ ds)

/-- Model of bcrypt (external library): hashing is injective and
`bcompare` recognises exactly the hashed password.  Salting and the hash
format are not modelled; no statement below depends on them. -/
def bhash (password : String) : String := "bcrypt$" ++ password

def bcompare (password stored : String) : Bool := stored == bhash password

/-- Replace the first element satisfying p, as `updateOne` does. -/
def updateFirst (p : α → Bool) (f : α → α) : List α → List α
  | [] => []
  | x :: xs => if p x then f x :: xs else x :: updateFirst p f xs

/-- Remove the first element satisfying p, as `deleteOne` does. -/
def eraseFirst (p : α → Bool) : List α → List α
  | [] => []
  | x :: xs => if p x then xs else x :: eraseFirst p xs

/-- Aggregation `$group {_id: null, t: {$sum: field}}`: an empty
collection produces no group row at all (`none`); otherwise the sum. -/
def aggSum (xs : List JNum) : Option JNum :=
  if xs.isEmpty then none else some (xs.foldl JNum.add (JNum.num 0))

/-- The JavaScript pattern `rows[0]?.field || 0` applied to an
aggregation result: a missing row yields 0, and a falsy numeric value
(NaN, and 0 itself) also yields 0. -/
def jsOrZero : Option JNum → JNum
  | some (JNum.num q) => JNum.num q
  | _ => JNum.num 0

structure Admin where
  id : String
  name : String
  email : String
  password : String
  fingerprint : Option String
deriving Repr, DecidableEq

structure Product where
  id : String
  name : String
  category : String
  price : JNum
  size : String
  image : Option String
  description : String
deriving Repr, DecidableEq

structure Order where
  id : String
  status : String
  totalAmount : JNum
  createdAt : ℤ
deriving Repr, DecidableEq

structure Logo where
  id : String
  approval : Bool
  price : JNum
deriving Repr, DecidableEq

/-- The document store: the four collections used by server.js plus the
counter from which the driver generates ids for inserts. -/
structure Store where
  admins : List Admin
  products : List Product
  orders : List Order
  logos : List Logo
  nextId : Nat
deriving Repr, DecidableEq

/-- One store round-trip, for stating which handlers touch the store. -/
inductive StoreOp where
  | find : String → StoreOp
  | insert : String → StoreOp
  | update : String → StoreOp
  | delete : String → StoreOp
  | aggregate : String → StoreOp
deriving Repr, DecidableEq

/-- Result of one request: HTTP status, JSON body, store state after the
request, and the store operations performed, in order. -/
structure ApiResult where
  status : Nat
  body : JVal
  store : Store
  log : List StoreOp

/-- JSON serialisation of an optional string field stored as `x || null`. -/
def optStr : Option String → JVal
  | none => JVal.jnull
  | some s => JVal.jstr s

def adminJson (a : Admin) : JVal :=
  JVal.jobj [("_id", JVal.jstr a.id), ("name", JVal.jstr a.name),
    ("email", JVal.jstr a.email), ("password", JVal.jstr a.password),
    ("fingerprint", optStr a.fingerprint)]

def productJson (p : Product) : JVal :=
  JVal.jobj [("_id", JVal.jstr p.id), ("name", JVal.jstr p.name),
    ("category", JVal.jstr p.category), ("price", JVal.jnum p.price),
    ("size", JVal.jstr p.size), ("image", optStr p.image),
    ("description", JVal.jstr p.description)]

def orderJson (o : Order) : JVal :=
  JVal.jobj [("_id", JVal.jstr o.id), ("status", JVal.jstr o.status),
    ("totalAmount", JVal.jnum o.totalAmount),
    ("createdAt", JVal.jnum (JNum.num (o.createdAt : ℚ)))]

def logoJson (l : Logo) : JVal :=
  JVal.jobj [("_id", JVal.jstr l.id), ("approval", JVal.jbool l.approval),
    ("price", JVal.jnum l.price)]

def msgBody (m : String) : JVal := JVal.jobj [("message", JVal.jstr m)]

/-- POST /register (server.js lines 66-97): missing-field check, findOne
on email, bcrypt hash, insertOne. -/
def register (s : Store) (name email password fingerprint : Option String) : ApiResult :=
  if falsy name || falsy email || falsy password then
    ⟨400, msgBody "Please provide all fields", s, []⟩
  else
    match s.admins.find? (fun a => a.email == email.getD "") with
    | some _ => ⟨400, msgBody "Email already exists", s, [StoreOp.find "admin"]⟩
    | none =>
      let newAdmin : Admin :=
        ⟨idOfNat s.nextId, name.getD "", email.getD "",
          bhash (password.getD ""), if falsy fingerprint then none else fingerprint⟩
      ⟨201, msgBody "Admin registered successfully",
        { s with admins := s.admins ++ [newAdmin], nextId := s.nextId + 1 },
        [StoreOp.find "admin", StoreOp.insert "admin"]⟩

/-- POST /login (server.js lines 100-130): missing-field check, findOne on
email, bcrypt compare; undifferentiated 401 on unknown email or bad
password; success body {message, id, email, name}. -/
def login (s : Store) (email password : Option String) : ApiResult :=
  if falsy email || falsy password then
    ⟨400, msgBody "Email and password are required", s, []⟩
  else
    match s.admins.find? (fun a => a.email == email.getD "") with
    | none => ⟨401, msgBody "Invalid email or password", s, [StoreOp.find "admin"]⟩
    | some user =>
      if bcompare (password.getD "") user.password then
        ⟨200, JVal.jobj [("message", JVal.jstr "Login successful"),
          ("id", JVal.jstr user.id), ("email", JVal.jstr user.email),
          ("name", JVal.jstr user.name)], s, [StoreOp.find "admin"]⟩
      else ⟨401, msgBody "Invalid email or password", s, [StoreOp.find "admin"]⟩

/-- POST /login-with-id (server.js lines 133-157): no format validation;
`new ObjectId(id)` throws on a malformed id, caught as a 500. -/
def loginWithId (s : Store) (id : Option String) : ApiResult :=
  if falsy id then ⟨400, msgBody "ID is required", s, []⟩
  else if !isValidObjectId (id.getD "") then
    ⟨500, msgBody "Error logging in", s, []⟩
  else
    match s.admins.find? (fun a => a.id == normId (id.getD "")) with
    | none => ⟨401, msgBody "Invalid ID", s, [StoreOp.find "admin"]⟩
    | some user =>
      ⟨200, JVal.jobj [("message", JVal.jstr "Login successful"),
        ("id", JVal.jstr user.id), ("email", JVal.jstr user.email),
        ("name", JVal.jstr user.name)], s, [StoreOp.find "admin"]⟩

/-- GET /products and GET /all/products (server.js lines 161-170 and
256-265, identical bodies): all product documents. -/
def listProducts (s : Store) : ApiResult :=
  ⟨200, JVal.jarr (s.products.map productJson), s, [StoreOp.find "products"]⟩

/-- POST /products (server.js lines 173-197): missing-field check, price
through `parseFloat`, image from the uploaded file's URL (`req.file.path`
throws when no file was uploaded, caught as a 500), insertOne; responds
with the created record. -/
def createProduct (s : Store)
    (name category price size description imageFile : Option String) : ApiResult :=
  if falsy name || falsy category || falsy price || falsy size then
    ⟨400, msgBody "Please provide all required fields", s, []⟩
  else
    match imageFile with
    | none => ⟨500, msgBody "Error adding product", s, []⟩
    | some path =>
      let newProduct : Product :=
        ⟨idOfNat s.nextId, name.getD "", category.getD "",
          parseFloat (price.getD ""), size.getD "", some path,
          (description.getD "")⟩
      ⟨201, JVal.jobj [("message", JVal.jstr "Product added successfully"),
          ("product", productJson newProduct)],
        { s with products := s.products ++ [newProduct], nextId := s.nextId + 1 },
        [StoreOp.insert "products"]⟩

/-- PUT /products/:id (server.js lines 200-234): missing-field check, then
updateOne with a full `$set` of all six fields — `image || null` and
`description || ''`, so omitted optional fields overwrite.  No id format
check: `new ObjectId(id)` throws on a malformed id, caught as a 500. -/
def updateProduct (s : Store) (id : String)
    (name category price size image description : Option String) : ApiResult :=
  if falsy name || falsy category || falsy price || falsy size then
    ⟨400, msgBody "Please provide all required fields", s, []⟩
  else if !isValidObjectId id then
    ⟨500, msgBody "Error updating product", s, []⟩
  else
    let newImage : Option String := if falsy image then none else image
    let newDesc : String := description.getD ""
    let setFields : Product → Product := fun p =>
      ⟨p.id, name.getD "", category.getD "", parseFloat (price.getD ""),
        size.getD "", newImage, newDesc⟩
    if s.products.any (fun p => p.id == normId id) then
      ⟨200, JVal.jobj [("message", JVal.jstr "Product updated successfully"),
          ("updatedProduct", JVal.jobj [("name", JVal.jstr (name.getD "")),
            ("category", JVal.jstr (category.getD "")),
            ("price", JVal.jnum (parseFloat (price.getD ""))),
            ("size", JVal.jstr (size.getD "")), ("image", optStr newImage),
            ("description", JVal.jstr newDesc)])],
        { s with products := updateFirst (fun p => p.id == normId id) setFields s.products },
        [StoreOp.update "products"]⟩
    else ⟨404, msgBody "Product not found", s, [StoreOp.update "products"]⟩

/-- DELETE /products/:id (server.js lines 237-253): deleteOne, 404 when
nothing was deleted.  No id format check: `new ObjectId(id)` throws on a
malformed id, caught as a 500. -/
def deleteProduct (s : Store) (id : String) : ApiResult :=
  if !isValidObjectId id then ⟨500, msgBody "Error deleting product", s, []⟩
  else if s.products.any (fun p => p.id == normId id) then
    ⟨200, msgBody "Product deleted successfully",
      { s with products := eraseFirst (fun p => p.id == normId id) s.products },
      [StoreOp.delete "products"]⟩
  else ⟨404, msgBody "Product not found", s, [StoreOp.delete "products"]⟩

/-- GET /api/orders (server.js lines 268-277): all order documents. -/
def listOrders (s : Store) : ApiResult :=
  ⟨200, JVal.jarr (s.orders.map orderJson), s, [StoreOp.find "orders"]⟩

/-- GET /api/orders/:id (server.js lines 280-302): `ObjectId.isValid`
check before any store access, findOne, then only {id, status} of the
document is returned. -/
def getOrder (s : Store) (id : String) : ApiResult :=
  if !isValidObjectId id then ⟨400, msgBody "Invalid order ID format", s, []⟩
  else
    match s.orders.find? (fun o => o.id == normId id) with
    | none => ⟨404, msgBody "Order not found", s, [StoreOp.find "orders"]⟩
    | some o =>
      ⟨200, JVal.jobj [("id", JVal.jstr o.id), ("status", JVal.jstr o.status)],
        s, [StoreOp.find "orders"]⟩

/-- POST /api/orders/:orderId/complete (server.js lines 305-331):
`ObjectId.isValid` check, then updateOne `$set {status: 'complete'}`,
404 when no document matched. -/
def completeOrder (s : Store) (orderId : String) : ApiResult :=
  if !isValidObjectId orderId then ⟨400, msgBody "Invalid order ID format", s, []⟩
  else
    let newOrders :=
      updateFirst (fun o => o.id == normId orderId)
        (fun o => { o with status := "complete" }) s.orders
    if s.orders.any (fun o => o.id == normId orderId) then
      ⟨200, msgBody "Order status updated to complete",
        { s with orders := newOrders }, [StoreOp.update "orders"]⟩
    else ⟨404, msgBody "Order not found", s, [StoreOp.update "orders"]⟩

/-- GET /api/admins (server.js lines 334-343): all admin documents,
password hashes included. -/
def listAdmins (s : Store) : ApiResult :=
  ⟨200, JVal.jarr (s.admins.map adminJson), s, [StoreOp.find "admin"]⟩

/-- GET /api/logos (server.js lines 381-390): all logo documents. -/
def listLogos (s : Store) : ApiResult :=
  ⟨200, JVal.jarr (s.logos.map logoJson), s, [StoreOp.find "logos"]⟩

/-- GET /api/logos/:id (server.js lines 393-413): `ObjectId.isValid`
check, findOne, full document returned. -/
def getLogo (s : Store) (id : String) : ApiResult :=
  if !isValidObjectId id then ⟨400, msgBody "Invalid logo ID format", s, []⟩
  else
    match s.logos.find? (fun l => l.id == normId id) with
    | none => ⟨404, msgBody "Logo not found", s, [StoreOp.find "logos"]⟩
    | some l => ⟨200, logoJson l, s, [StoreOp.find "logos"]⟩

/-- POST /api/logos/:id/complete (server.js lines 416-442):
`ObjectId.isValid` check, then updateOne `$set {approval: true}`, 404
when no document matched. -/
def completeLogo (s : Store) (id : String) : ApiResult :=
  if !isValidObjectId id then ⟨400, msgBody "Invalid logo ID format", s, []⟩
  else
    let newLogos :=
      updateFirst (fun l => l.id == normId id)
        (fun l => { l with approval := true }) s.logos
    if s.logos.any (fun l => l.id == normId id) then
      ⟨200, msgBody "Logo status updated to complete",
        { s with logos := newLogos }, [StoreOp.update "logos"]⟩
    else ⟨404, msgBody "Logo not found", s, [StoreOp.update "logos"]⟩

/-- GET /api/total (server.js lines 445-464): `$sum` of Logo.price and of
Order.totalAmount, each read back as `rows[0]?.field || 0`. -/
def totals (s : Store) : ApiResult :=
  ⟨200, JVal.jobj
      [("totalPrice", JVal.jnum (jsOrZero (aggSum (s.logos.map Logo.price)))),
       ("totalAmount", JVal.jnum (jsOrZero (aggSum (s.orders.map Order.totalAmount))))],
    s, [StoreOp.aggregate "logos", StoreOp.aggregate "orders"]⟩

/-- GET /api/sales-stats (server.js lines 467-499).  The three `$match`
lower bounds are `Date.now() - 7 days`, the first of the current month
and the first of the current year; the JavaScript `Date` calendar
arithmetic that produces them from request time is not re-modelled — the
three resulting timestamps enter as parameters, which only strengthens
the statements quantifying over them.  The `salesByMonth` field is the
hard-coded example list from line 493. -/
def salesStats (s : Store) (weekAgo monthStart yearStart : ℤ) : ApiResult :=
  let sumFrom : ℤ → JNum := fun t =>
    jsOrZero (aggSum ((s.orders.filter (fun o => t ≤ o.createdAt)).map Order.totalAmount))
  ⟨200, JVal.jobj
      [("weeklySales", JVal.jnum (sumFrom weekAgo)),
       ("monthlySales", JVal.jnum (sumFrom monthStart)),
       ("yearlySales", JVal.jnum (sumFrom yearStart)),
       ("totalSales", JVal.jnum (jsOrZero (aggSum (s.orders.map Order.totalAmount)))),
       ("salesByMonth", JVal.jarr ([3000, 4200, 3500, 5200, 6000, 7200, 8000,
          8500, 9000, 9500, 10000, 11000].map (fun n : ℚ => JVal.jnum (JNum.num n))))],
    s, [StoreOp.aggregate "orders", StoreOp.aggregate "orders",
      StoreOp.aggregate "orders", StoreOp.aggregate "orders"]⟩

/-- Every operation exposed by the API, with its request data. -/
inductive ApiOp where
  | register (name email password fingerprint : Option String) : ApiOp
  | login (email password : Option String) : ApiOp
  | loginWithId (id : Option String) : ApiOp
  | listProducts : ApiOp
  | createProduct (name category price size description imageFile : Option String) : ApiOp
  | updateProduct (id : String) (name category price size image description : Option String) : ApiOp
  | deleteProduct (id : String) : ApiOp
  | listOrders : ApiOp
  | getOrder (id : String) : ApiOp
  | completeOrder (orderId : String) : ApiOp
  | listAdmins : ApiOp
  | listLogos : ApiOp
  | getLogo (id : String) : ApiOp
  | completeLogo (id : String) : ApiOp
  | totals : ApiOp
  | salesStats (weekAgo monthStart yearStart : ℤ) : ApiOp

/-- Dispatch of one API operation against the store. -/
def applyOp (op : ApiOp) (s : Store) : ApiResult :=
  match op with
  | ApiOp.register n e p f => register s n e p f
  | ApiOp.login e p => login s e p
  | ApiOp.loginWithId i => loginWithId s i
  | ApiOp.listProducts => listProducts s
  | ApiOp.createProduct n c p sz d f => createProduct s n c p sz d f
  | ApiOp.updateProduct i n c p sz im d => updateProduct s i n c p sz im d
  | ApiOp.deleteProduct i => deleteProduct s i
  | ApiOp.listOrders => listOrders s
  | ApiOp.getOrder i => getOrder s i
  | ApiOp.completeOrder i => completeOrder s i
  | ApiOp.listAdmins => listAdmins s
  | ApiOp.listLogos => listLogos s
  | ApiOp.getLogo i => getLogo s i
  | ApiOp.completeLogo i => completeLogo s i
  | ApiOp.totals => totals s
  | ApiOp.salesStats w m y => salesStats s w m y

theorem updateFirst_length (p : α → Bool) (f : α → α) (l : List α) :
    (updateFirst p f l).length = l.length := by
  induction l with
  | nil => rfl
  | cons x xs ih =>
    simp only [updateFirst]
    split <;> simp [ih]

theorem updateFirst_get? (p : α → Bool) (f : α → α) (l : List α) (n : Nat) :
    (updateFirst p f l).get? n = l.get? n ∨
      (updateFirst p f l).get? n = (l.get? n).map f := by
  induction l generalizing n with
  | nil => left; rfl
  | cons x xs ih =>
    simp only [updateFirst]
    split
    · cases n with
      | zero => right; rfl
      | succ m => left; rfl
    · cases n with
      | zero => left; rfl
      | succ m => exact ih m

theorem find?_eq_some_of_any (p : α → Bool) (l : List α) (h : l.any p = true) :
    ∃ x, l.find? p = some x ∧ p x = true := by
  induction l with
  | nil => simp at h
  | cons x xs ih =>
    by_cases hx : p x = true
    · exact ⟨x, by simp [List.find?, hx], hx⟩
    · rw [Bool.not_eq_true] at hx
      simp only [List.any_cons, hx, Bool.false_or] at h
      rcases ih h with ⟨y, hy, hpy⟩
      exact ⟨y, by simp [List.find?, hx, hy], hpy⟩

theorem find?_updateFirst (p : α → Bool) (f : α → α)
    (hp : ∀ y, p (f y) = p y) (l : List α) (x : α)
    (h : l.find? p = some x) :
    (updateFirst p f l).find? p = some (f x) := by
  induction l with
  | nil => simp [List.find?] at h
  | cons a as ih =>
    simp only [updateFirst]
    by_cases ha : p a = true
    · simp only [List.find?, ha] at h
      simp only [Option.some.injEq] at h
      subst h
      simp [ha, List.find?, hp]
    · rw [Bool.not_eq_true] at ha
      simp only [List.find?, ha] at h
      simp [ha, List.find?, hp, ih h]

theorem any_updateFirst (p : α → Bool) (f : α → α)
    (hp : ∀ y, p (f y) = p y) (l : List α) :
    (updateFirst p f l).any p = l.any p := by
  induction l with
  | nil => rfl
  | cons a as ih =>
    simp only [updateFirst]
    split
    · simp_all [hp]
    · simp_all

theorem updateFirst_idem (p : α → Bool) (f : α → α)
    (hp : ∀ y, p (f y) = p y) (hf : ∀ y, f (f y) = f y) (l : List α) :
    updateFirst p f (updateFirst p f l) = updateFirst p f l := by
  induction l with
  | nil => rfl
  | cons a as ih =>
    simp only [updateFirst]
    by_cases ha : p a = true
    · simp [ha, updateFirst, hp, hf]
    · rw [Bool.not_eq_true] at ha
      simp [ha, updateFirst, ih]

theorem find?_append_none (p : α → Bool) (l₁ l₂ : List α)
    (h : l₁.find? p = none) : (l₁ ++ l₂).find? p = l₂.find? p := by
  simp [List.find?_append, h]

theorem updateFirst_append_first (p : α → Bool) (f : α → α)
    (l₁ l₂ : List α) (a : α) (h₁ : ∀ x ∈ l₁, p x = false) (ha : p a = true) :
    updateFirst p f (l₁ ++ a :: l₂) = l₁ ++ f a :: l₂ := by
  induction l₁ with
  | nil => simp [updateFirst, ha]
  | cons b bs ih =>
    have hb : p b = false := h₁ b (List.mem_cons_self b bs)
    simp only [List.cons_append, updateFirst, hb]
    simp only [Bool.false_eq_true, if_false]
    exact congrArg (b :: ·) (ih (fun x hx => h₁ x (List.mem_cons_of_mem b hx)))

theorem eraseFirst_append_first (p : α → Bool)
    (l₁ l₂ : List α) (a : α) (h₁ : ∀ x ∈ l₁, p x = false) (ha : p a = true) :
    eraseFirst p (l₁ ++ a :: l₂) = l₁ ++ l₂ := by
  induction l₁ with
  | nil => simp [eraseFirst, ha]
  | cons b bs ih =>
    have hb : p b = false := h₁ b (List.mem_cons_self b bs)
    simp only [List.cons_append, eraseFirst, hb]
    simp only [Bool.false_eq_true, if_false]
    exact congrArg (b :: ·) (ih (fun x hx => h₁ x (List.mem_cons_of_mem b hx)))

theorem orders_completeOrder_pred (id : String) :
    ∀ o : Order, ((fun o : Order => o.id == normId id) { o with status := "complete" })
      = (o.id == normId id) := fun _ => rfl

theorem foldl_add_num (qs : List ℚ) (a : ℚ) :
    (qs.map JNum.num).foldl JNum.add (JNum.num a) = JNum.num (a + qs.sum) := by
  induction qs generalizing a with
  | nil => simp
  | cons q rest ih =>
    simp only [List.map_cons, List.foldl_cons, JNum.add, List.sum_cons, ih]
    ring_nf

theorem applyOp_orders (op : ApiOp) (s : Store) :
    (applyOp op s).store.orders = s.orders ∨
    ∃ i, (applyOp op s).store.orders
      = updateFirst (fun o : Order => o.id == normId i)
        (fun o => { o with status := "complete" }) s.orders := by
  cases op with
  | completeOrder i =>
    simp only [applyOp, completeOrder]
    split
    · left; rfl
    · split
      · right; exact ⟨i, rfl⟩
      · left; rfl
  | _ =>
    left
    simp only [applyOp, register, login, loginWithId, listProducts, createProduct,
      updateProduct, deleteProduct, listOrders, getOrder, listAdmins, listLogos,
      getLogo, completeLogo, totals, salesStats]
    repeat' split
    all_goals rfl

theorem applyOp_logos (op : ApiOp) (s : Store) :
    (applyOp op s).store.logos = s.logos ∨
    ∃ i, (applyOp op s).store.logos
      = updateFirst (fun l : Logo => l.id == normId i)
        (fun l => { l with approval := true }) s.logos := by
  cases op with
  | completeLogo i =>
    simp only [applyOp, completeLogo]
    split
    · left; rfl
    · split
      · right; exact ⟨i, rfl⟩
      · left; rfl
  | _ =>
    left
    simp only [applyOp, register, login, loginWithId, listProducts, createProduct,
      updateProduct, deleteProduct, listOrders, getOrder, listAdmins, listLogos,
      getLogo, completeOrder, totals, salesStats]
    repeat' split
    all_goals rfl

/-- Concrete data used by the witnesses below. -/
def egOrderId : String := "0123456789abcdef01234567"

def egOrder : Order := ⟨egOrderId, "pending", JNum.num 50, 0⟩

def egStoreOrders : Store := ⟨[], [], [egOrder], [], 0⟩

/-- C1: for every order id that matches an existing order,
`completeOrder(id)` succeeds, `getOrder(id)` afterwards returns status
"complete", and a second `completeOrder(id)` also succeeds and leaves the
store exactly as after the first call (idempotence, no error on an
already-complete order). -/
theorem completeOrder_getOrder_complete_idempotent (s : Store) (id : String)
    (hvalid : isValidObjectId id = true)
    (hmatch : s.orders.any (fun o => o.id == normId id) = true) :
    (completeOrder s id).status = 200 ∧
    (getOrder (completeOrder s id).store id).status = 200 ∧
    (getOrder (completeOrder s id).store id).body.lookupField "status"
      = some (JVal.jstr "complete") ∧
    (completeOrder (completeOrder s id).store id).status = 200 ∧
    (completeOrder (completeOrder s id).store id).store = (completeOrder s id).store := by
  have hp := orders_completeOrder_pred id
  have hf : ∀ o : Order,
      ({ { o with status := "complete" } with status := "complete" } : Order)
        = { o with status := "complete" } := fun _ => rfl
  obtain ⟨o, hfind, hpo⟩ :=
    find?_eq_some_of_any (fun o : Order => o.id == normId id) s.orders hmatch
  have hfind2 := find?_updateFirst (fun o : Order => o.id == normId id)
    (fun o => { o with status := "complete" }) hp s.orders o hfind
  have hany2 := any_updateFirst (fun o : Order => o.id == normId id)
    (fun o => { o with status := "complete" }) hp s.orders
  have hidem := updateFirst_idem (fun o : Order => o.id == normId id)
    (fun o => { o with status := "complete" }) hp hf s.orders
  refine ⟨?_, ?_, ?_, ?_, ?_⟩
  · simp [completeOrder, hvalid, hmatch]
  · simp only [completeOrder, hvalid, Bool.not_true, Bool.false_eq_true, if_false,
      hmatch, if_true, getOrder]
    rw [hfind2]
  · simp only [completeOrder, hvalid, Bool.not_true, Bool.false_eq_true, if_false,
      hmatch, if_true, getOrder]
    rw [hfind2]
    rfl
  · simp only [completeOrder, hvalid, Bool.not_true, Bool.false_eq_true, if_false,
      hmatch, if_true]
    simp [hany2, hmatch]
  · simp only [completeOrder, hvalid, Bool.not_true, Bool.false_eq_true, if_false,
      hmatch, if_true]
    simp only [hany2, hmatch, if_true]
    simp [hidem]

/-- Witness for C1: the hypotheses and the conclusion at a concrete
one-order store. -/
theorem completeOrder_getOrder_complete_idempotent_witness :
    isValidObjectId egOrderId = true ∧
    egStoreOrders.orders.any (fun o => o.id == normId egOrderId) = true ∧
    ((completeOrder egStoreOrders egOrderId).status = 200 ∧
      (getOrder (completeOrder egStoreOrders egOrderId).store egOrderId).status = 200 ∧
      (getOrder (completeOrder egStoreOrders egOrderId).store egOrderId).body.lookupField "status"
        = some (JVal.jstr "complete") ∧
      (completeOrder (completeOrder egStoreOrders egOrderId).store egOrderId).status = 200 ∧
      (completeOrder (completeOrder egStoreOrders egOrderId).store egOrderId).store
        = (completeOrder egStoreOrders egOrderId).store) :=
  ⟨by decide, by decide,
    completeOrder_getOrder_complete_idempotent egStoreOrders egOrderId
      (by decide) (by decide)⟩

def egLogoId : String := "abcdefabcdefabcdefabcdef"

def egOrderDone : Order := ⟨egOrderId, "complete", JNum.num 50, 0⟩

def egLogoDone : Logo := ⟨egLogoId, true, JNum.num 5⟩

def egStoreDone : Store := ⟨[], [], [egOrderDone], [egLogoDone], 0⟩

/-- C2: for every store state and every operation exposed by the API, an
order whose status is "complete" keeps id and status "complete"
afterwards, and a logo whose approval is true keeps id and approval true
afterwards: no exposed operation moves either terminal value back. -/
theorem terminal_status_monotone (op : ApiOp) (s : Store) (n : Nat) :
    (∀ o, s.orders.get? n = some o → o.status = "complete" →
      ∃ o2, (applyOp op s).store.orders.get? n = some o2 ∧
        o2.id = o.id ∧ o2.status = "complete") ∧
    (∀ l, s.logos.get? n = some l → l.approval = true →
      ∃ l2, (applyOp op s).store.logos.get? n = some l2 ∧
        l2.id = l.id ∧ l2.approval = true) := by
  constructor
  · intro o hget hstat
    rcases applyOp_orders op s with h | ⟨i, h⟩
    · exact ⟨o, by rw [h, hget], rfl, hstat⟩
    · rcases updateFirst_get? (fun o : Order => o.id == normId i)
        (fun o => { o with status := "complete" }) s.orders n with h2 | h2
      · exact ⟨o, by rw [h, h2, hget], rfl, hstat⟩
      · exact ⟨{ o with status := "complete" },
          by rw [h, h2, hget]; rfl, rfl, rfl⟩
  · intro l hget happ
    rcases applyOp_logos op s with h | ⟨i, h⟩
    · exact ⟨l, by rw [h, hget], rfl, happ⟩
    · rcases updateFirst_get? (fun l : Logo => l.id == normId i)
        (fun l => { l with approval := true }) s.logos n with h2 | h2
      · exact ⟨l, by rw [h, h2, hget], rfl, happ⟩
      · exact ⟨{ l with approval := true },
          by rw [h, h2, hget]; rfl, rfl, rfl⟩

/-- Witness for C2: a complete order survives a repeated completeOrder and
an approved logo survives a repeated completeLogo. -/
theorem terminal_status_monotone_witness :
    (∃ o2, (applyOp (ApiOp.completeOrder egOrderId) egStoreDone).store.orders.get? 0
        = some o2 ∧ o2.id = egOrderDone.id ∧ o2.status = "complete") ∧
    (∃ l2, (applyOp (ApiOp.completeLogo egLogoId) egStoreDone).store.logos.get? 0
        = some l2 ∧ l2.id = egLogoDone.id ∧ l2.approval = true) :=
  ⟨(terminal_status_monotone (ApiOp.completeOrder egOrderId) egStoreDone 0).1
      egOrderDone rfl rfl,
    (terminal_status_monotone (ApiOp.completeLogo egLogoId) egStoreDone 0).2
      egLogoDone rfl rfl⟩

theorem bhash_inj {a b : String} (h : bhash a = bhash b) : a = b := by
  have hd := congrArg String.data h
  simp only [bhash, String.data_append] at hd
  exact String.ext (List.append_cancel_left hd)

theorem find?_email_none (admins : List Admin) (email : String)
    (hfresh : ∀ a ∈ admins, (a.email == email) = false) :
    admins.find? (fun a => a.email == email) = none :=
  List.find?_eq_none.mpr fun a ha => by simp [hfresh a ha]

/-- C3: in a sequential execution, registering twice with the same email
(required fields present both times) makes the first call succeed with
201, the second fail with ConflictError (400, "Email already exists"),
and leaves exactly one admin record with that email in the store. -/
theorem register_twice_conflict (s : Store)
    (name email password name2 password2 : String) (fp fp2 : Option String)
    (hn : name ≠ "") (he : email ≠ "") (hpw : password ≠ "")
    (hn2 : name2 ≠ "") (hpw2 : password2 ≠ "")
    (hfresh : ∀ a ∈ s.admins, (a.email == email) = false) :
    (register s (some name) (some email) (some password) fp).status = 201 ∧
    (register (register s (some name) (some email) (some password) fp).store
        (some name2) (some email) (some password2) fp2).status = 400 ∧
    (register (register s (some name) (some email) (some password) fp).store
        (some name2) (some email) (some password2) fp2).body
      = msgBody "Email already exists" ∧
    ((register (register s (some name) (some email) (some password) fp).store
        (some name2) (some email) (some password2) fp2).store.admins.filter
          (fun a => a.email == email)).length = 1 := by
  have hfind := find?_email_none s.admins email hfresh
  have hfilter : s.admins.filter (fun a => a.email == email) = [] :=
    List.filter_eq_nil_iff.mpr fun a ha => by simp [hfresh a ha]
  refine ⟨?_, ?_, ?_, ?_⟩ <;>
    simp [register, falsy, hn, he, hpw, hn2, hpw2, hfind, find?_append_none,
      List.find?, List.filter_append, hfilter, List.filter]

/-- Witness for C3 on the empty store. -/
theorem register_twice_conflict_witness :
    (register (⟨[], [], [], [], 0⟩ : Store)
        (some "Alice") (some "a@x.com") (some "pw") none).status = 201 ∧
    (register (register (⟨[], [], [], [], 0⟩ : Store)
          (some "Alice") (some "a@x.com") (some "pw") none).store
        (some "Bob") (some "a@x.com") (some "pw2") none).status = 400 ∧
    (register (register (⟨[], [], [], [], 0⟩ : Store)
          (some "Alice") (some "a@x.com") (some "pw") none).store
        (some "Bob") (some "a@x.com") (some "pw2") none).body
      = msgBody "Email already exists" ∧
    ((register (register (⟨[], [], [], [], 0⟩ : Store)
          (some "Alice") (some "a@x.com") (some "pw") none).store
        (some "Bob") (some "a@x.com") (some "pw2") none).store.admins.filter
          (fun a => a.email == "a@x.com")).length = 1 :=
  register_twice_conflict ⟨[], [], [], [], 0⟩ "Alice" "a@x.com" "pw" "Bob" "pw2"
    none none (by decide) (by decide) (by decide) (by decide) (by decide)
    (by simp)

/-- C4 counterexample: after a successful registration, logging in with
the empty string — a wrong password for that email — returns 400 (the
missing-field ValidationError), not 401 (AuthError), because the
handler's falsy-field check fires before any credential comparison.  So
the claim "login with any wrong password fails with AuthError" is false
at the wrong password "". -/
theorem login_empty_wrong_password_counterexample :
    (register (⟨[], [], [], [], 0⟩ : Store)
        (some "Alice") (some "a@x.com") (some "pw") none).status = 201 ∧
    "" ≠ "pw" ∧
    (login (register (⟨[], [], [], [], 0⟩ : Store)
          (some "Alice") (some "a@x.com") (some "pw") none).store
        (some "a@x.com") (some "")).status = 400 ∧
    (login (register (⟨[], [], [], [], 0⟩ : Store)
          (some "Alice") (some "a@x.com") (some "pw") none).store
        (some "a@x.com") (some "")).status ≠ 401 :=
  ⟨by decide, by decide, by decide, by decide⟩

/-- C4 (amended): after a successful register(name, email, password),
login with the correct password succeeds and returns exactly
{message, id, email, name} with the id the insert produced — no password
hash among the fields — and login with any non-empty wrong password for
that email fails with AuthError (401).  (The empty wrong password is
rejected as a missing field with 400 instead; see the counterexample.) -/
theorem login_after_register_roundtrip (s : Store)
    (name email password : String) (fp : Option String)
    (hn : name ≠ "") (he : email ≠ "") (hpw : password ≠ "")
    (hfresh : ∀ a ∈ s.admins, (a.email == email) = false) :
    (register s (some name) (some email) (some password) fp).status = 201 ∧
    (login (register s (some name) (some email) (some password) fp).store
        (some email) (some password)).status = 200 ∧
    (login (register s (some name) (some email) (some password) fp).store
        (some email) (some password)).body
      = JVal.jobj [("message", JVal.jstr "Login successful"),
          ("id", JVal.jstr (idOfNat s.nextId)), ("email", JVal.jstr email),
          ("name", JVal.jstr name)] ∧
    ∀ wp, wp ≠ password → wp ≠ "" →
      (login (register s (some name) (some email) (some password) fp).store
        (some email) (some wp)).status = 401 := by
  have hfind := find?_email_none s.admins email hfresh
  refine ⟨?_, ?_, ?_, ?_⟩
  · simp [register, falsy, hn, he, hpw, hfind]
  · simp [register, login, falsy, hn, he, hpw, hfind, find?_append_none,
      List.find?, bcompare]
  · simp [register, login, falsy, hn, he, hpw, hfind, find?_append_none,
      List.find?, bcompare]
  · intro wp hwp hne
    have hbc : (bhash password == bhash wp) = false :=
      beq_eq_false_iff_ne.mpr fun h => hwp (bhash_inj h).symm
    simp [register, login, falsy, hn, he, hpw, hne, hfind, find?_append_none,
      List.find?, bcompare, hbc]

/-- Witness for C4 on the empty store, with wrong password "xx". -/
theorem login_after_register_roundtrip_witness :
    (register (⟨[], [], [], [], 0⟩ : Store)
        (some "Alice") (some "a@x.com") (some "pw") none).status = 201 ∧
    (login (register (⟨[], [], [], [], 0⟩ : Store)
          (some "Alice") (some "a@x.com") (some "pw") none).store
        (some "a@x.com") (some "pw")).status = 200 ∧
    (login (register (⟨[], [], [], [], 0⟩ : Store)
          (some "Alice") (some "a@x.com") (some "pw") none).store
        (some "a@x.com") (some "pw")).body
      = JVal.jobj [("message", JVal.jstr "Login successful"),
          ("id", JVal.jstr (idOfNat 0)), ("email", JVal.jstr "a@x.com"),
          ("name", JVal.jstr "Alice")] ∧
    (login (register (⟨[], [], [], [], 0⟩ : Store)
          (some "Alice") (some "a@x.com") (some "pw") none).store
        (some "a@x.com") (some "xx")).status = 401 :=
  have h := login_after_register_roundtrip ⟨[], [], [], [], 0⟩
    "Alice" "a@x.com" "pw" none (by decide) (by decide) (by decide) (by simp)
  ⟨h.1, h.2.1, h.2.2.1, h.2.2.2 "xx" (by decide) (by decide)⟩

/-- C5: getOrder on an id that is not a well-formed ObjectId fails with
ValidationError (400, "Invalid order ID format") with an empty store
operation log and an unchanged store — the store is never reached; on a
well-formed id whose first match is o it returns 200 and the body is
exactly {id, status} of that document, no other fields. -/
theorem getOrder_validation_and_projection (s : Store) (id : String) :
    (isValidObjectId id = false →
      getOrder s id = ⟨400, msgBody "Invalid order ID format", s, []⟩) ∧
    (∀ o, isValidObjectId id = true →
      s.orders.find? (fun o => o.id == normId id) = some o →
      getOrder s id = ⟨200, JVal.jobj [("id", JVal.jstr o.id),
        ("status", JVal.jstr o.status)], s, [StoreOp.find "orders"]⟩) := by
  constructor
  · intro h
    simp [getOrder, h]
  · intro o hv hf
    simp [getOrder, hv, hf]

/-- Witness for C5: both branches at concrete inputs. -/
theorem getOrder_validation_and_projection_witness :
    isValidObjectId "not-an-id" = false ∧
    getOrder egStoreOrders "not-an-id"
      = ⟨400, msgBody "Invalid order ID format", egStoreOrders, []⟩ ∧
    isValidObjectId egOrderId = true ∧
    egStoreOrders.orders.find? (fun o => o.id == normId egOrderId) = some egOrder ∧
    getOrder egStoreOrders egOrderId
      = ⟨200, JVal.jobj [("id", JVal.jstr egOrder.id),
          ("status", JVal.jstr egOrder.status)], egStoreOrders,
          [StoreOp.find "orders"]⟩ :=
  ⟨by decide,
    (getOrder_validation_and_projection egStoreOrders "not-an-id").1 (by decide),
    by decide, by decide,
    (getOrder_validation_and_projection egStoreOrders egOrderId).2 egOrder
      (by decide) (by decide)⟩

/-- C6: deleteProduct on a well-formed id matching no product fails with
NotFoundError (404) leaving the whole store unchanged; on an id whose
first match is p it succeeds (200) and removes exactly that record,
leaving all other products in place and in order. -/
theorem deleteProduct_notfound_or_removes_exactly (s : Store) (id : String)
    (hvalid : isValidObjectId id = true) :
    ((∀ p ∈ s.products, (p.id == normId id) = false) →
      (deleteProduct s id).status = 404 ∧ (deleteProduct s id).store = s) ∧
    (∀ l₁ l₂ p, s.products = l₁ ++ p :: l₂ →
      (∀ q ∈ l₁, (q.id == normId id) = false) → (p.id == normId id) = true →
      (deleteProduct s id).status = 200 ∧
      (deleteProduct s id).store.products = l₁ ++ l₂) := by
  constructor
  · intro hnone
    have hany : s.products.any (fun p => p.id == normId id) = false :=
      List.any_eq_false.mpr fun p hp => by simp [hnone p hp]
    constructor <;> simp [deleteProduct, hvalid, hany]
  · intro l₁ l₂ p hsplit hfirst hmatch
    have hany : s.products.any (fun p => p.id == normId id) = true := by
      rw [hsplit]
      simp [List.any_append, hmatch]
    have herase := eraseFirst_append_first (fun q : Product => q.id == normId id)
      l₁ l₂ p hfirst hmatch
    constructor
    · simp [deleteProduct, hvalid, hany]
    · simp only [deleteProduct, hvalid, Bool.not_true, Bool.false_eq_true,
        if_false, hany, if_true]
      rw [hsplit, herase]

def egProd1 : Product :=
  ⟨"aaaaaaaaaaaaaaaaaaaaaaaa", "Jersey A", "tops", JNum.num 10, "M",
    some "http://img/a.png", "first"⟩

def egProd2 : Product :=
  ⟨"bbbbbbbbbbbbbbbbbbbbbbbb", "Jersey B", "tops", JNum.num 20, "L",
    some "http://img/b.png", "second"⟩

def egStoreProducts : Store := ⟨[], [egProd1, egProd2], [], [], 0⟩

/-- Witness for C6: both branches at concrete inputs. -/
theorem deleteProduct_notfound_or_removes_exactly_witness :
    isValidObjectId "cccccccccccccccccccccccc" = true ∧
    ((deleteProduct egStoreProducts "cccccccccccccccccccccccc").status = 404 ∧
      (deleteProduct egStoreProducts "cccccccccccccccccccccccc").store
        = egStoreProducts) ∧
    ((deleteProduct egStoreProducts "bbbbbbbbbbbbbbbbbbbbbbbb").status = 200 ∧
      (deleteProduct egStoreProducts "bbbbbbbbbbbbbbbbbbbbbbbb").store.products
        = [egProd1] ++ []) :=
  ⟨by decide,
    (deleteProduct_notfound_or_removes_exactly egStoreProducts
      "cccccccccccccccccccccccc" (by decide)).1 (by decide),
    (deleteProduct_notfound_or_removes_exactly egStoreProducts
      "bbbbbbbbbbbbbbbbbbbbbbbb" (by decide)).2 [egProd1] [] egProd2
      (by decide) (by decide) (by decide)⟩

theorem jsOrZero_aggSum_num (qs : List ℚ) :
    jsOrZero (aggSum (qs.map JNum.num)) = JNum.num qs.sum := by
  cases qs with
  | nil => rfl
  | cons q rest =>
    have h1 : aggSum ((q :: rest).map JNum.num)
        = some (((q :: rest).map JNum.num).foldl JNum.add (JNum.num 0)) := rfl
    rw [h1, foldl_add_num]
    simp [jsOrZero]

/-- C7: totals succeeds with 200 and returns the sum of Logo.price over
all logos and the sum of Order.totalAmount over all orders whenever the
stored values are numeric; empty collections produce the empty sums, so
both fields are 0 and no error occurs. -/
theorem totals_sums (s : Store) (qsL qsO : List ℚ)
    (hL : s.logos.map Logo.price = qsL.map JNum.num)
    (hO : s.orders.map Order.totalAmount = qsO.map JNum.num) :
    (totals s).status = 200 ∧
    (totals s).store = s ∧
    (totals s).body = JVal.jobj
      [("totalPrice", JVal.jnum (JNum.num qsL.sum)),
       ("totalAmount", JVal.jnum (JNum.num qsO.sum))] := by
  refine ⟨rfl, rfl, ?_⟩
  simp [totals, hL, hO, jsOrZero_aggSum_num]

/-- Witness for C7: on empty orders and logos collections the result is
{totalPrice: 0, totalAmount: 0} with status 200. -/
theorem totals_sums_witness :
    ((⟨[], [], [], [], 0⟩ : Store).logos.map Logo.price
        = ([] : List ℚ).map JNum.num) ∧
    (totals ⟨[], [], [], [], 0⟩).status = 200 ∧
    (totals ⟨[], [], [], [], 0⟩).body = JVal.jobj
      [("totalPrice", JVal.jnum (JNum.num 0)),
       ("totalAmount", JVal.jnum (JNum.num 0))] :=
  have h := totals_sums ⟨[], [], [], [], 0⟩ [] [] rfl rfl
  ⟨rfl, h.1, by simpa using h.2.2⟩

/-- C8: the salesByMonth field of a successful salesStats response is the
same fixed twelve-element series for every store state and every request
time (every choice of the three date lower bounds): it is not derived
from the orders collection. -/
theorem salesStats_salesByMonth_constant (s : Store) (w m y : ℤ) :
    (salesStats s w m y).status = 200 ∧
    (salesStats s w m y).body.lookupField "salesByMonth"
      = some (JVal.jarr ([3000, 4200, 3500, 5200, 6000, 7200, 8000, 8500,
          9000, 9500, 10000, 11000].map (fun n : ℚ => JVal.jnum (JNum.num n)))) :=
  ⟨rfl, rfl⟩

/-- C9: createProduct with all required fields present and the
non-numeric price string "abc" succeeds with 201, responds with the
created record, and appends to the store a product document whose price
is NaN — the input is not rejected. -/
theorem createProduct_nonnumeric_price_stores_nan (s : Store)
    (name category size path : String) (d : Option String)
    (hn : name ≠ "") (hc : category ≠ "") (hs : size ≠ "") :
    (createProduct s (some name) (some category) (some "abc") (some size)
        d (some path)).status = 201 ∧
    (createProduct s (some name) (some category) (some "abc") (some size)
        d (some path)).store.products
      = s.products ++ [⟨idOfNat s.nextId, name, category, JNum.nan, size,
          some path, d.getD ""⟩] ∧
    (createProduct s (some name) (some category) (some "abc") (some size)
        d (some path)).body
      = JVal.jobj [("message", JVal.jstr "Product added successfully"),
          ("product", productJson ⟨idOfNat s.nextId, name, category, JNum.nan,
            size, some path, d.getD ""⟩)] := by
  have habc : parseFloat "abc" = JNum.nan := by decide
  have hpr : falsy (some "abc") = false := by decide
  refine ⟨?_, ?_, ?_⟩ <;>
    simp [createProduct, falsy, hn, hc, hs, hpr, habc]

/-- Witness for C9 on the empty store. -/
theorem createProduct_nonnumeric_price_stores_nan_witness :
    (createProduct (⟨[], [], [], [], 0⟩ : Store) (some "Jersey") (some "tops")
        (some "abc") (some "M") (some "desc") (some "http://img/x.png")).status = 201 ∧
    (createProduct (⟨[], [], [], [], 0⟩ : Store) (some "Jersey") (some "tops")
        (some "abc") (some "M") (some "desc") (some "http://img/x.png")).store.products
      = [] ++ [⟨idOfNat 0, "Jersey", "tops", JNum.nan, "M",
          some "http://img/x.png", (some "desc").getD ""⟩] :=
  have h := createProduct_nonnumeric_price_stores_nan ⟨[], [], [], [], 0⟩
    "Jersey" "tops" "M" "http://img/x.png" (some "desc")
    (by decide) (by decide) (by decide)
  ⟨h.1, h.2.1⟩

/-- C10: a successful updateProduct call in which the optional image and
description fields are omitted overwrites the matched product's stored
image with null and its description with the empty string, keeping its
id: the previous image URL is not preserved. -/
theorem updateProduct_omitted_image_overwrites (s : Store) (id : String)
    (name category price size : String) (l₁ l₂ : List Product) (p : Product)
    (hvalid : isValidObjectId id = true)
    (hn : name ≠ "") (hc : category ≠ "") (hpr : price ≠ "") (hs : size ≠ "")
    (hsplit : s.products = l₁ ++ p :: l₂)
    (hfirst : ∀ q ∈ l₁, (q.id == normId id) = false)
    (hmatch : (p.id == normId id) = true) :
    (updateProduct s id (some name) (some category) (some price) (some size)
        none none).status = 200 ∧
    (updateProduct s id (some name) (some category) (some price) (some size)
        none none).store.products
      = l₁ ++ (⟨p.id, name, category, parseFloat price, size, none, ""⟩ :
          Product) :: l₂ := by
  have hany : s.products.any (fun q => q.id == normId id) = true := by
    rw [hsplit]
    simp [List.any_append, hmatch]
  have hupd := updateFirst_append_first (fun q : Product => q.id == normId id)
    (fun q => ⟨q.id, name, category, parseFloat price, size, none, ""⟩)
    l₁ l₂ p hfirst hmatch
  constructor
  · simp [updateProduct, falsy, hn, hc, hpr, hs, hvalid, hany]
  · simp only [updateProduct, falsy, hvalid, Bool.not_true, Bool.false_eq_true,
      if_false, hany, if_true]
    have hnb : (name == "") = false := beq_eq_false_iff_ne.mpr hn
    have hcb : (category == "") = false := beq_eq_false_iff_ne.mpr hc
    have hprb : (price == "") = false := beq_eq_false_iff_ne.mpr hpr
    have hsb : (size == "") = false := beq_eq_false_iff_ne.mpr hs
    simp only [hnb, hcb, hprb, hsb, Bool.or_self, Bool.or_false, Bool.false_or,
      Bool.false_eq_true, if_false, Option.getD]
    rw [hsplit, hupd]

/-- Witness for C10: updating the second product with image and
description omitted nulls its image and empties its description. -/
theorem updateProduct_omitted_image_overwrites_witness :
    isValidObjectId "bbbbbbbbbbbbbbbbbbbbbbbb" = true ∧
    (updateProduct egStoreProducts "bbbbbbbbbbbbbbbbbbbbbbbb" (some "Jersey B2")
        (some "tops") (some "25") (some "L") none none).status = 200 ∧
    (updateProduct egStoreProducts "bbbbbbbbbbbbbbbbbbbbbbbb" (some "Jersey B2")
        (some "tops") (some "25") (some "L") none none).store.products
      = [egProd1] ++ (⟨egProd2.id, "Jersey B2", "tops", parseFloat "25", "L",
          none, ""⟩ : Product) :: [] :=
  have h := updateProduct_omitted_image_overwrites egStoreProducts
    "bbbbbbbbbbbbbbbbbbbbbbbb" "Jersey B2" "tops" "25" "L" [egProd1] [] egProd2
    (by decide) (by decide) (by decide) (by decide) (by decide) rfl
    (by decide) (by decide)
  ⟨by decide, h.1, h.2⟩

end JerseyShop

